import Mathlib

/-!
# divid-rpc: the request-dispatch engine of `lib/index.js`

A shallow embedding of `RpcClient` (`src/lib/index.js`): the static `callspec`
table, the method bodies synthesised by `generateRPCMethods`, the response
handling inside `rpc`, and `batch`.

Modelling conventions.

* JavaScript values are the inductive `JsValue`.  Numbers are restricted to
  integers, which is all that identifiers, status codes and the sample
  payloads need.  A function value is a handle `func id`; what the function
  does when called is supplied by the platform (`Platform.call`).
* Everything the file obtains from the runtime is a field of `Platform`:
  `JSON.parse`, the string conversion that `new Error(v)` applies to `v` (which
  can throw), the HTTP exchange (`http.request` and the daemon behind it),
  `Math.random`, and the behaviour of caller-supplied functions.
* Side effects are recorded in an explicit `World`: the payloads handed to
  `rpc` (one HTTP POST each, in order), the invocations of caller-supplied
  functions, and the instance field `batchedCalls`.
* A promise is represented by the way it settles (`Settled`).  An `async`
  method is split at its single `await` into the part that runs synchronously
  when the method is called and the part that runs once the exchange settles.
* The payload of an exchange is the request value given to `rpc`; its
  serialisation by `JSON.stringify` and the three `this.log.err` lines written
  to the logging sink before a parse failure is rejected are not modelled.
* In the source text the body of the synthesised method lacks one closing
  brace (the `try`/`catch` statement is the last statement of the function);
  the embedding follows the nesting shown by the indentation.
-/

namespace RpcClient

/-! ## Values -/

/-- JavaScript values that reach the client. -/
inductive JsValue where
  | undefined
  | null
  | bool (b : Bool)
  | num (n : Int)
  | str (s : String)
  | arr (items : List JsValue)
  | obj (fields : List (String × JsValue))
  | func (id : Nat)
  | error (message : String)

/-- JavaScript truthiness (`ToBoolean`), as used by `parsedBuf.error ? … : …`. -/
def truthy : JsValue → Bool
  | .undefined => false
  | .null => false
  | .bool b => b
  | .num n => n != 0
  | .str s => s != ""
  | .arr _ => true
  | .obj _ => true
  | .func _ => true
  | .error _ => true

/-- The test `typeof v === 'function'`. -/
def isFunction : JsValue → Bool
  | .func _ => true
  | _ => false

/-- The message of the `TypeError` raised by reading a property of `null`. -/
def nullPropertyMessage : String := "Cannot read properties of null (reading 'error')"

/-- The property read `parsedBuf.error`: it throws on `null` and `undefined`,
looks the key up in an object, and is `undefined` on every other value. -/
def propError : JsValue → Except String JsValue
  | .null => .error nullPropertyMessage
  | .undefined => .error "Cannot read properties of undefined (reading 'error')"
  | .obj fields => .ok ((fields.lookup "error").getD .undefined)
  | _ => .ok .undefined

/-! ## The platform and the recorded effects -/

/-- The status line and body that the `end` event of a response sees. -/
structure HttpResponse where
  statusCode : Nat
  statusMessage : String
  body : String

/-- What one HTTP exchange ends with: a response (`end`) or a request failure
(`error`, with `e.message`). -/
inductive TransportResult where
  | response (res : HttpResponse)
  | requestError (message : String)

/-- One call of a caller-supplied function with the two arguments `(err, result)`. -/
structure Invocation where
  fn : JsValue
  err : JsValue
  result : JsValue

/-- The runtime services used by the client.
* `jsonParse body` is `JSON.parse(body)`; a failure carries `e.message`.
* `toStringOf v` is the string conversion of `v` performed by `new Error(v)`: the
  message of the new error, or, when the conversion throws (as it does for an
  object that has a key `toString` of its own), the message of what is thrown.
* `exchange k payload` is how the `k`-th HTTP exchange, carrying `payload`, ends.
* `random k` is the `k`-th value of `Math.floor(Math.random() * 100000)` before
  reduction to its range.
* `call id history err result` is what the function `func id` does when called
  with `(err, result)` after the invocations in `history`: `none` when it
  returns, `some e` when it throws `e`. -/
structure Platform where
  jsonParse : String → Except String JsValue
  toStringOf : JsValue → Except String String
  exchange : Nat → JsValue → TransportResult
  random : Nat → Nat
  call : Nat → List Invocation → JsValue → JsValue → Option JsValue

/-- The effects observed so far and the mutable instance state. -/
structure World where
  exchanges : List JsValue
  idsDrawn : Nat
  invocations : List Invocation
  batchedCalls : Option (List JsValue)

/-- A fresh client: nothing sent, `this.batchedCalls = null`. -/
def World.initial : World :=
  { exchanges := [], idsDrawn := 0, invocations := [], batchedCalls := none }

/-- How a promise settles. -/
inductive Settled where
  | resolved (value : JsValue)
  | rejected (reason : JsValue)

/-- The value a promise settles with, whichever way it settles. -/
def Settled.value : Settled → JsValue
  | .resolved v => v
  | .rejected e => e

/-- Calling the value `callee` with `(err, result)`: a function is invoked and the
invocation recorded; calling anything else throws a `TypeError`. The first
component is the thrown value, if any. -/
def invoke (P : Platform) (callee err result : JsValue) (w : World) :
    Option JsValue × World :=
  match callee with
  | .func id =>
    (P.call id w.invocations err result,
      { w with invocations := w.invocations ++ [⟨callee, err, result⟩] })
  | _ => (some (.error "callback is not a function"), w)

/-! ## `rpc` -/

/-- The `end` handler of `rpc` (lines 58-76): the settlement of the promise from
the status code and the accumulated body `buf`. On line 64 the second argument
`{ code: 429 }` of `new Error` is an options bag in which only `cause` is read, so
the overload error carries its message and nothing else. On line 69 both the read
`parsedBuf.error` and the construction `new Error(parsedBuf.error)` happen inside
the `try`, so whatever either of them throws is rejected by line 74. -/
def rpcOnEnd (P : Platform) (res : HttpResponse) : Settled :=
  if res.statusCode = 401 ∨ res.statusCode = 403 then
    .rejected (.error
      ("Connection Rejected: " ++ toString res.statusCode ++ " " ++ res.statusMessage))
  else if res.statusCode = 500 ∧ res.body = "Work queue depth exceeded" then
    .rejected (.error res.body)
  else
    match P.jsonParse res.body with
    | .ok parsedBuf =>
      match propError parsedBuf with
      | .ok e =>
        if truthy e then
          match P.toStringOf e with
          | .ok message => .resolved (.error message)
          | .error m => .rejected (.error ("Error Parsing JSON: " ++ m))
        else
          .resolved parsedBuf
      | .error m => .rejected (.error ("Error Parsing JSON: " ++ m))
    | .error m => .rejected (.error ("Error Parsing JSON: " ++ m))

/-- The settlement of the promise returned by `rpc` for the `k`-th exchange. -/
def rpcSettle (P : Platform) (k : Nat) (request : JsValue) : Settled :=
  match P.exchange k request with
  | .response res => rpcOnEnd P res
  | .requestError m => .rejected (.error ("Request Error: " ++ m))

/-- The synchronous part of `rpc(request)`: the request is written and ended; the
result is the index of the exchange. -/
def rpcSend (request : JsValue) (w : World) : Nat × World :=
  (w.exchanges.length, { w with exchanges := w.exchanges ++ [request] })

/-- The method `getRandomId`. -/
def getRandomId (P : Platform) (w : World) : Nat × World :=
  (P.random w.idsDrawn % 100000, { w with idsDrawn := w.idsDrawn + 1 })

/-! ## The catalogue -/

/-- The object literal `callspec` (lines 93-205), property by property as written
(`addvault` is written twice). -/
def callspecLiteral : List (String × String) := [
  -- == Addressindex ==
  ("getaddressbalance", "str|str bool"),
  ("getaddressdeltas", "str|str bool"),
  ("getaddresstxids", "str|str bool"),
  ("getaddressutxos", "str|str bool"),
  -- == Blockchain ==
  ("getbestblockhash", ""),
  ("getblock", "str bool"),
  ("getblockchaininfo", ""),
  ("getblockcount", ""),
  ("getblockhash", "int"),
  ("getblockheader", "str bool"),
  ("getchaintips", ""),
  ("getdifficulty", ""),
  ("getlotteryblockwinners", "int?"),
  ("getmempoolinfo", ""),
  ("getrawmempool", "bool"),
  ("getspentinfo", "\x7btxid:,index:\x7d"),
  ("gettxout", "str int bool"),
  ("gettxoutsetinfo", ""),
  ("reverseblocktransactions", "str"),
  ("verifychain", "int?"),
  -- == Control ==
  ("getinfo", ""),
  ("help", "str?"),
  ("stop", ""),
  -- == Divi ==
  ("ban", "str"),
  ("clearbanned", ""),
  ("spork", "str str?"),
  -- == Vault  ==
  ("addvault", "str str"),
  ("fundvault", "str int"),
  ("reclaimvaultfunds", "str float str?"),
  ("removevault", "str"),
  -- == Masternode == Deprecated
  ("mnsync", "str"),
  -- == Mining ==
  ("getmininginfo", ""),
  ("prioritisetransaction", "str int int"),
  -- == Network ==
  ("addnode", "str str"),
  ("getaddednodeinfo", "bool str"),
  ("getconnectioncount", ""),
  ("getnettotals", ""),
  ("getnetworkinfo", ""),
  ("getpeerinfo", ""),
  ("ping", ""),
  -- == Rawtransactions ==
  ("createrawtransaction", "[\x7btxid:id,vout:n\x7d,...] \x7baddress:amount,...\x7d"),
  ("decoderawtransaction", "str"),
  ("decodescript", "str"),
  ("getrawtransaction", "str bool"),
  ("sendrawtransaction", "str bool"),
  ("signrawtransaction", "str [\x7btxid:id,vout:n,scriptPubKey:hex,redeemScript:hex\x7d,...] [privatekey1,...] str"),
  -- == Util ==
  ("createmultisig", "int [str,...]"),
  ("validateaddress", "str"),
  ("verifymessage", "str str str"),
  -- == Wallet ==
  ("addmultisigaddress", "int [str,...] str"),
  ("addvault", "str str"),
  ("backupwallet", "str"),
  ("bip38decrypt", "str"),
  ("bip38encrypt", "str str"),
  ("debitvaultbyname", "str str float str?"),
  ("dumphdinfo", ""),
  ("dumpprivkey", "str"),
  ("encryptwallet", "str"),
  ("getaccount", "str"),
  ("getaccountaddress", "str"),
  ("getaddressesbyaccount", "str"),
  ("getbalance", "str int bool"),
  ("getinvalid", ""),
  ("getnewaddress", "str?"),
  ("getrawchangeaddress", ""),
  ("getreceivedbyaccount", "str int"),
  ("getreceivedbyaddress", "str int"),
  ("getstakingstatus", ""),
  ("gettransaction", "str bool"),
  ("getunconfirmedbalance", ""),
  ("getwalletinfo", ""),
  ("importaddress", "str str bool"),
  ("importprivkey", "str str bool"),
  ("keypoolrefill", "int"),
  ("listaccounts", "int bool"),
  ("listlockunspent", ""),
  ("listreceivedbyaccount", "int bool bool"),
  ("listreceivedbyaddress", "int bool bool"),
  ("listsinceblock", "str int bool"),
  ("listtransactions", "str int int bool"),
  ("listunspent", "int int [str,...]"),
  ("loadwallet", "str"),
  ("lockunspent", "bool [\x7btxid:txid,vout:n\x7d,...]"),
  ("sendfrom", "str str int str str"),
  ("sendmany", "str \x7baddress:amount,...\x7d str"),
  ("sendtoaddress", "str int str str str"),
  ("setaccount", "str str"),
  ("signmessage", "str str str? str?")
]

/-- Setting a property: an existing key keeps its position and takes the new
value, a new key is appended. -/
def setProperty (key value : String) : List (String × String) → List (String × String)
  | [] => [(key, value)]
  | (k, v) :: rest =>
    if k = key then (k, value) :: rest else (k, v) :: setProperty key value rest

/-- The entries of `callspec` as `Object.entries` lists them. -/
def callspec : List (String × String) :=
  callspecLiteral.foldl (fun acc kv => setProperty kv.1 kv.2 acc) []

/-- The pieces of `s.split(' ')`, on the characters of `s`. -/
def splitOnSpace : List Char → List (List Char)
  | [] => [[]]
  | c :: cs =>
    if c = ' ' then [] :: splitOnSpace cs
    else
      match splitOnSpace cs with
      | [] => [[c]]
      | piece :: pieces => (c :: piece) :: pieces

/-- The list `argTypes.split(' ').filter(Boolean)`: the non-empty pieces. -/
def argList (argTypes : String) : List String :=
  ((splitOnSpace argTypes.data).filter (fun piece => !piece.isEmpty)).map String.mk

/-! ## The synthesised methods -/

/-- Where a call of a synthesised method stands when it reaches its `await` (or
ends before it). -/
inductive Started where
  | threw (reason : JsValue)
  | awaiting (k : Nat) (request callback : JsValue)

/-- The message of the error thrown by the arity check (line 214). -/
def arityMessage (methodName : String) (required received : Nat) : String :=
  "Method " ++ methodName ++ " requires " ++ toString required ++
    " arguments, but got " ++ toString received

/-- The request object literal of lines 220-225. -/
def requestObject (methodName : String) (params : List JsValue) (id : Nat) : JsValue :=
  .obj [("jsonrpc", .str "2.0"), ("method", .str methodName), ("params", .arr params),
    ("id", .num id)]

/-- Lines 213-229 up to the `await`: the arity check, `params`, `callback`, the
request object, and the call `rpc.call(this, request)`. -/
def methodStart (P : Platform) (methodName argTypes : String) (args : List JsValue)
    (w : World) : Started × World :=
  let required := (argList argTypes).length
  if args.length < required then
    (.threw (.error (arityMessage methodName required args.length)), w)
  else
    let params := args.take required
    let callback := args.getLast?.getD .undefined
    let (id, w1) := getRandomId P w
    let request := requestObject methodName params id
    let (k, w2) := rpcSend request w1
    (.awaiting k request callback, w2)

/-- The `catch (error)` block (lines 234-240). -/
def methodCatch (P : Platform) (callback error : JsValue) (w : World) : Settled × World :=
  if isFunction callback then
    match invoke P callback error .null w with
    | (none, w1) => (.resolved .undefined, w1)
    | (some thrown, w1) => (.rejected thrown, w1)
  else
    (.rejected error, w)

/-- Lines 228-240 after the `await`: the rest of the `try` block when the exchange
resolved, the `catch` block when it was rejected or when the `try` block threw. -/
def methodSettle (P : Platform) (callback : JsValue) (outcome : Settled) (w : World) :
    Settled × World :=
  match outcome with
  | .resolved response =>
    if isFunction callback then
      match invoke P callback .null response w with
      | (none, w1) => (.resolved response, w1)
      | (some thrown, w1) => methodCatch P callback thrown w1
    else
      (.resolved response, w)
  | .rejected error => methodCatch P callback error w

/-- A whole call of the method synthesised for `(methodName, argTypes)`: how the
returned promise settles, and the effects. -/
def generatedMethod (P : Platform) (methodName argTypes : String) (args : List JsValue)
    (w : World) : Settled × World :=
  match methodStart P methodName argTypes args w with
  | (.threw reason, w1) => (.rejected reason, w1)
  | (.awaiting k request callback, w1) =>
    methodSettle P callback (rpcSettle P k request) w1

/-- A call `client.methodName(...args)`. -/
structure Call where
  methodName : String
  args : List JsValue

/-- The call `client[methodName](...args)` on the prototype filled by
`generateRPCMethods`: `none` when the catalogue has no such key (the property is
not a function and the call throws in the caller). -/
def callMethod (P : Platform) (c : Call) (w : World) : Option (Settled × World) :=
  (callspec.lookup c.methodName).map (fun argTypes =>
    generatedMethod P c.methodName argTypes c.args w)

/-! ## `batch` -/

/-- The synchronous part of the calls made, in order, by a batch-building
callback: the calls still awaiting their exchange, or `none` when a call names
no method and the callback throws. -/
def runCalls (P : Platform) : List Call → World → Option (List Started × World)
  | [], w => some ([], w)
  | c :: cs, w =>
    match callspec.lookup c.methodName with
    | none => none
    | some argTypes =>
      match methodStart P c.methodName argTypes c.args w with
      | (s, w1) => (runCalls P cs w1).map (fun r => (s :: r.1, r.2))

/-- The calls made by the callback run to their settlement, in the order in which
they were started. -/
def settleCalls (P : Platform) : List Started → World → World
  | [], w => w
  | .threw _ :: rest, w => settleCalls P rest w
  | .awaiting k request callback :: rest, w =>
    settleCalls P rest (methodSettle P callback (rpcSettle P k request) w).2

/-- The chain `.then(result => resultCallback(null, result))
.catch(error => resultCallback(error, null))` of `batch` (lines 89-90). -/
def batchSettle (P : Platform) (resultCallback : JsValue) (outcome : Settled) (w : World) :
    World :=
  match outcome with
  | .resolved result =>
    match invoke P resultCallback .null result w with
    | (none, w1) => w1
    | (some thrown, w1) => (invoke P resultCallback thrown .null w1).2
  | .rejected error => (invoke P resultCallback error .null w).2

/-- The method `batch(batchCallback, resultCallback)` (lines 85-92), where
`batchCallback` makes the calls `calls` on this client. `none` when `batchCallback`
throws. The exchanges are settled after `batch` has returned, those of the calls
first, in the order sent. -/
def batch (P : Platform) (calls : List Call) (resultCallback : JsValue) (w : World) :
    Option World :=
  let w0 := { w with batchedCalls := some [] }
  match runCalls P calls w0 with
  | none => none
  | some (started, w1) =>
    let payload := JsValue.arr (w1.batchedCalls.getD [])
    let (k, w2) := rpcSend payload w1
    let w3 := { w2 with batchedCalls := none }
    let w4 := settleCalls P started w3
    some (batchSettle P resultCallback (rpcSettle P k payload) w4)

/-! ## Sample platforms -/

mutual
/-- The string conversion of the sample platforms. It is the conversion of the
runtime on the values that `JSON.parse` produces, for integers of magnitude below
`2 ^ 53`: an object prints as `[object Object]` unless it has a key `toString` of
its own, in which case the conversion throws; an array prints its elements joined
by commas. No sample converts a function, printed here as `function`. -/
def sampleToString : JsValue → Except String String
  | .undefined => .ok "undefined"
  | .null => .ok "null"
  | .bool b => .ok (if b then "true" else "false")
  | .num n => .ok (toString n)
  | .str s => .ok s
  | .arr items => sampleJoin items
  | .obj fields =>
    if (fields.lookup "toString").isSome then
      .error "Cannot convert object to primitive value"
    else
      .ok "[object Object]"
  | .func _ => .ok "function"
  | .error message => .ok (if message = "" then "Error" else "Error: " ++ message)
termination_by structural v => v
/-- The body of `Array.prototype.join(",")` on the sample platforms: `null` and
`undefined` elements print as the empty string; a conversion that throws makes
the whole conversion throw. -/
def sampleJoin : List JsValue → Except String String
  | [] => .ok ""
  | x :: rest =>
    let head : Except String String :=
      match x with
      | .undefined => .ok ""
      | .null => .ok ""
      | _ => sampleToString x
    match head with
    | .error thrown => .error thrown
    | .ok first =>
      match rest with
      | [] => .ok first
      | _ :: _ =>
        match sampleJoin rest with
        | .error thrown => .error thrown
        | .ok others => .ok (first ++ "," ++ others)
termination_by structural items => items
end

/-- A platform on which every exchange ends with the response
`(statusCode, statusMessage, body)`, `JSON.parse(body)` is `parsed` and the parser
fails with the message `Unexpected token` on every other text, the string
conversion is `sampleToString`, every identifier drawn is `7`, and the behaviour
of caller-supplied functions is `call`. -/
def fixedPlatform (statusCode : Nat) (statusMessage body : String) (parsed : JsValue)
    (call : Nat → List Invocation → JsValue → JsValue → Option JsValue) : Platform :=
  { jsonParse := fun text => if text = body then .ok parsed else .error "Unexpected token"
    toStringOf := sampleToString
    exchange := fun _ _ => .response ⟨statusCode, statusMessage, body⟩
    random := fun _ => 7
    call := call }

/-- A caller-supplied function that returns normally whatever it is given. -/
def quietHandler : Nat → List Invocation → JsValue → JsValue → Option JsValue :=
  fun _ _ _ _ => none

/-- A caller-supplied function that throws `Error("boom")` when it is handed a
result (its error argument is `null`) and returns normally otherwise. -/
def throwingHandler : Nat → List Invocation → JsValue → JsValue → Option JsValue :=
  fun _ _ err _ =>
    match err with
    | .null => some (.error "boom")
    | _ => none

/-- The body `{"result":12345,"error":null,"id":7}`. -/
def successBody : String := "\x7b\"result\":12345,\"error\":null,\"id\":7\x7d"

/-- The value `JSON.parse` returns on `successBody`. -/
def successParsed : JsValue :=
  .obj [("result", .num 12345), ("error", .null), ("id", .num 7)]

/-- The body `{"result":null,"error":{"code":-5,"message":"Block not found"},"id":7}`. -/
def failureBody : String :=
  "\x7b\"result\":null,\"error\":\x7b\"code\":-5,\"message\":\"Block not found\"\x7d,\"id\":7\x7d"

/-- The value `JSON.parse` returns on `failureBody`. -/
def failureParsed : JsValue :=
  .obj [("result", .null),
    ("error", .obj [("code", .num (-5)), ("message", .str "Block not found")]),
    ("id", .num 7)]

/-- The body `{"result":null,"error":0,"id":7}`. -/
def zeroErrorBody : String := "\x7b\"result\":null,\"error\":0,\"id\":7\x7d"

/-- The value `JSON.parse` returns on `zeroErrorBody`. -/
def zeroErrorParsed : JsValue :=
  .obj [("result", .null), ("error", .num 0), ("id", .num 7)]

/-- The body `{"result":null,"error":{"toString":"x"},"id":7}`. -/
def unprintableErrorBody : String :=
  "\x7b\"result\":null,\"error\":\x7b\"toString\":\"x\"\x7d,\"id\":7\x7d"

/-- The value `JSON.parse` returns on `unprintableErrorBody`. -/
def unprintableErrorParsed : JsValue :=
  .obj [("result", .null), ("error", .obj [("toString", .str "x")]), ("id", .num 7)]

/-! ## Effects that the settlement of a call cannot have -/

theorem invoke_exchanges (P : Platform) (callee err result : JsValue) (w : World) :
    (invoke P callee err result w).2.exchanges = w.exchanges := by
  cases callee <;> rfl

theorem methodCatch_exchanges (P : Platform) (callback error : JsValue) (w : World) :
    (methodCatch P callback error w).2.exchanges = w.exchanges := by
  unfold methodCatch
  have h := invoke_exchanges P callback error .null w
  split
  · split <;> simp_all
  · rfl

theorem methodSettle_exchanges (P : Platform) (callback : JsValue) (outcome : Settled)
    (w : World) : (methodSettle P callback outcome w).2.exchanges = w.exchanges := by
  unfold methodSettle
  cases outcome with
  | resolved response =>
    have h := invoke_exchanges P callback .null response w
    simp only
    split
    · split
      · simp_all
      · rename_i thrown w1 heq
        rw [methodCatch_exchanges]
        simp_all
    · rfl
  | rejected error => exact methodCatch_exchanges P callback error w

/-! ## The arity check and the request -/

/-- C2: for every catalogue entry and every argument list shorter than the number
of non-empty space-separated tokens of its callspec string, the synthesised
method is rejected with the error `Method <name> requires <required> arguments,
but got <received>`, and the world is left as it was: no exchange is performed. -/
theorem arity_error_without_exchange (P : Platform) (methodName argTypes : String)
    (args : List JsValue) (w : World)
    (hentry : callspec.lookup methodName = some argTypes)
    (hshort : args.length < (argList argTypes).length) :
    callMethod P ⟨methodName, args⟩ w =
      some (.rejected (.error ("Method " ++ methodName ++ " requires " ++
        toString (argList argTypes).length ++ " arguments, but got " ++
        toString args.length)), w) := by
  simp [callMethod, hentry, generatedMethod, methodStart, hshort, arityMessage]

/-- The arities of `getblock`, `getblockcount` and `help` are 2, 0 and 1, and
`getblock("abc")` is rejected with a message naming 2 required and 1 received
arguments, the world being unchanged. -/
theorem arity_error_without_exchange_witness :
    callspec.lookup "getblock" = some "str bool" ∧ (argList "str bool").length = 2 ∧
    callspec.lookup "getblockcount" = some "" ∧ (argList "").length = 0 ∧
    callspec.lookup "help" = some "str?" ∧ (argList "str?").length = 1 ∧
    [JsValue.str "abc"].length < (argList "str bool").length ∧
    callMethod (fixedPlatform 200 "OK" successBody successParsed quietHandler)
        ⟨"getblock", [.str "abc"]⟩ World.initial =
      some (.rejected (.error "Method getblock requires 2 arguments, but got 1"),
        World.initial) :=
  ⟨by decide, by decide, by decide, by decide, by decide, by decide, by decide,
    arity_error_without_exchange _ "getblock" "str bool" [.str "abc"] World.initial
      (by decide) (by decide)⟩

/-- C3: for every catalogue entry with declared arity `N` and every argument list
of length at least `N`, the synthesised method performs exactly one exchange,
whose payload is the request with `jsonrpc` equal to `"2.0"`, `method` equal to
the catalogue key and `params` equal to the first `N` arguments; arguments past
position `N` are not part of the request. -/
theorem request_has_first_arguments (P : Platform) (methodName argTypes : String)
    (args : List JsValue) (w : World)
    (hentry : callspec.lookup methodName = some argTypes)
    (hlen : (argList argTypes).length ≤ args.length) :
    (callMethod P ⟨methodName, args⟩ w).map (fun r => r.2.exchanges) =
      some (w.exchanges ++
        [.obj [("jsonrpc", .str "2.0"), ("method", .str methodName),
          ("params", .arr (args.take (argList argTypes).length)),
          ("id", .num (P.random w.idsDrawn % 100000 : Nat))]]) := by
  have hnot : ¬ args.length < (argList argTypes).length := Nat.not_lt.mpr hlen
  simp only [callMethod, hentry, Option.map_some', generatedMethod, methodStart, hnot,
    if_false, getRandomId, rpcSend, methodSettle_exchanges]
  rfl

/-- The call `getblock("abc", true, f)` sends the single request
`{jsonrpc: "2.0", method: "getblock", params: ["abc", true], id: 7}`: the trailing
function is not among the parameters. -/
theorem request_has_first_arguments_witness :
    (argList "str bool").length ≤ [JsValue.str "abc", .bool true, .func 0].length ∧
    (callMethod (fixedPlatform 200 "OK" successBody successParsed quietHandler)
        ⟨"getblock", [.str "abc", .bool true, .func 0]⟩ World.initial).map
        (fun r => r.2.exchanges) =
      some [.obj [("jsonrpc", .str "2.0"), ("method", .str "getblock"),
          ("params", .arr [.str "abc", .bool true]), ("id", .num 7)]] :=
  ⟨by decide,
    request_has_first_arguments (fixedPlatform 200 "OK" successBody successParsed quietHandler)
      "getblock" "str bool" [.str "abc", .bool true, .func 0] World.initial
      (by decide) (by decide)⟩

/-! ## Classification of the response -/

/-- C7: for every response with status 401 or 403, whatever its body and whatever
`JSON.parse` would make of it, `rpc` rejects with the error
`Connection Rejected: <status code> <status text>`; the outcome depends on
neither the body nor the parser. -/
theorem auth_rejection_ignores_body (P : Platform) (statusCode : Nat)
    (statusMessage body : String) (hstatus : statusCode = 401 ∨ statusCode = 403) :
    rpcOnEnd P ⟨statusCode, statusMessage, body⟩ =
      .rejected (.error
        ("Connection Rejected: " ++ toString statusCode ++ " " ++ statusMessage)) := by
  simp [rpcOnEnd, hstatus]

/-- A 401 response carrying a well-formed success body, and a 403 response carrying
the overload text, are both rejected as connection rejections. -/
theorem auth_rejection_ignores_body_witness :
    ((401 : Nat) = 401 ∨ (401 : Nat) = 403) ∧
    rpcOnEnd (fixedPlatform 401 "Unauthorized" successBody successParsed quietHandler)
        ⟨401, "Unauthorized", successBody⟩ =
      .rejected (.error "Connection Rejected: 401 Unauthorized") ∧
    rpcOnEnd (fixedPlatform 403 "Forbidden" successBody successParsed quietHandler)
        ⟨403, "Forbidden", "Work queue depth exceeded"⟩ =
      .rejected (.error "Connection Rejected: 403 Forbidden") :=
  ⟨by decide,
    auth_rejection_ignores_body _ 401 "Unauthorized" successBody (by decide),
    auth_rejection_ignores_body _ 403 "Forbidden" "Work queue depth exceeded" (by decide)⟩

/-- C4, as the code has it: when a call with at least the declared number of
arguments is answered with status 200 and a body that parses to an object whose
`error` field is `null`, and the completion handler, if one was passed, returns
normally, the promise resolves to the whole parsed object (the object that holds
the `result` field), not to the value of its `result` field. -/
theorem success_resolves_to_parsed_object (P : Platform) (methodName argTypes : String)
    (args : List JsValue) (w : World) (res : HttpResponse)
    (fields : List (String × JsValue))
    (hentry : callspec.lookup methodName = some argTypes)
    (hlen : (argList argTypes).length ≤ args.length)
    (hexchange : P.exchange w.exchanges.length
      (requestObject methodName (args.take (argList argTypes).length)
        (P.random w.idsDrawn % 100000)) = .response res)
    (hstatus : res.statusCode = 200)
    (hparse : P.jsonParse res.body = .ok (.obj fields))
    (herror : fields.lookup "error" = some .null)
    (hhandler : ∀ id, args.getLast? = some (.func id) →
      P.call id w.invocations .null (.obj fields) = none) :
    (callMethod P ⟨methodName, args⟩ w).map Prod.fst = some (.resolved (.obj fields)) := by
  have hnot : ¬ args.length < (argList argTypes).length := Nat.not_lt.mpr hlen
  have hrpc : rpcOnEnd P res = .resolved (.obj fields) := by
    simp [rpcOnEnd, hstatus, hparse, propError, herror, truthy]
  simp only [callMethod, hentry, Option.map_some', generatedMethod, methodStart, hnot,
    if_false, getRandomId, rpcSend, rpcSettle, hexchange, hrpc, methodSettle]
  cases hlast : args.getLast? with
  | none => simp [isFunction]
  | some callback =>
    cases callback with
    | func id =>
      have hcall := hhandler id hlast
      simp [isFunction, invoke, hcall]
    | _ => simp [isFunction]

/-- The call `getblockcount()` answered with status 200 and the body
`{"result":12345,"error":null,"id":7}` resolves to the parsed object. -/
theorem success_resolves_to_parsed_object_witness :
    (callMethod (fixedPlatform 200 "OK" successBody successParsed quietHandler)
        ⟨"getblockcount", []⟩ World.initial).map Prod.fst =
      some (.resolved (.obj [("result", .num 12345), ("error", .null), ("id", .num 7)])) :=
  success_resolves_to_parsed_object
    (fixedPlatform 200 "OK" successBody successParsed quietHandler) "getblockcount" ""
    [] World.initial ⟨200, "OK", successBody⟩
    [("result", .num 12345), ("error", .null), ("id", .num 7)]
    (by decide) (by decide) rfl rfl rfl rfl (by intro id h; cases h)

/-- C4, as stated, fails: `getblockcount()` answered with status 200 and the body
`{"result":12345,"error":null,"id":7}` resolves to the object
`{result: 12345, error: null, id: 7}`, which is not the number `12345`. -/
theorem getblockcount_does_not_resolve_to_result_field :
    (callMethod (fixedPlatform 200 "OK" successBody successParsed quietHandler)
        ⟨"getblockcount", []⟩ World.initial).map Prod.fst =
      some (.resolved (.obj [("result", .num 12345), ("error", .null), ("id", .num 7)])) ∧
    (callMethod (fixedPlatform 200 "OK" successBody successParsed quietHandler)
        ⟨"getblockcount", []⟩ World.initial).map Prod.fst ≠
      some (.resolved (.num 12345)) := by
  have h : (callMethod (fixedPlatform 200 "OK" successBody successParsed quietHandler)
        ⟨"getblockcount", []⟩ World.initial).map Prod.fst =
      some (.resolved (.obj [("result", .num 12345), ("error", .null), ("id", .num 7)])) := by
    rfl
  refine ⟨h, ?_⟩
  rw [h]
  intro hh
  cases hh

/-- C6, as the code has it: for every response with status 500, the body
`Work queue depth exceeded` is rejected as the overload error. For any other body:
it is rejected as a parse failure when `JSON.parse` fails on it, and also when the
read `parsedBuf.error` throws (the body parses to `null`); otherwise, with `e` the
value of that read (`undefined` for a boolean, number, string, array or object
without the key), the promise resolves to the parsed value (success) when `e` is
falsy; when `e` is truthy it settles with the error whose message is the string
conversion of `e`, unless that conversion throws, which is rejected as a parse
failure. -/
theorem status_500_outcomes (P : Platform) (res : HttpResponse)
    (hstatus : res.statusCode = 500) :
    (res.body = "Work queue depth exceeded" →
      rpcOnEnd P res = .rejected (.error "Work queue depth exceeded")) ∧
    (res.body ≠ "Work queue depth exceeded" →
      (∀ m, P.jsonParse res.body = .error m →
        rpcOnEnd P res = .rejected (.error ("Error Parsing JSON: " ++ m))) ∧
      (∀ parsed m, P.jsonParse res.body = .ok parsed → propError parsed = .error m →
        rpcOnEnd P res = .rejected (.error ("Error Parsing JSON: " ++ m))) ∧
      (∀ parsed e, P.jsonParse res.body = .ok parsed → propError parsed = .ok e →
        truthy e = false → rpcOnEnd P res = .resolved parsed) ∧
      (∀ parsed e message, P.jsonParse res.body = .ok parsed → propError parsed = .ok e →
        truthy e = true → P.toStringOf e = .ok message →
        (rpcOnEnd P res).value = .error message) ∧
      (∀ parsed e m, P.jsonParse res.body = .ok parsed → propError parsed = .ok e →
        truthy e = true → P.toStringOf e = .error m →
        rpcOnEnd P res = .rejected (.error ("Error Parsing JSON: " ++ m)))) := by
  refine ⟨?_, fun hbody => ⟨?_, ?_, ?_, ?_, ?_⟩⟩
  · intro hbody
    simp [rpcOnEnd, hstatus, hbody]
  · intro m hparse
    simp [rpcOnEnd, hstatus, hbody, hparse]
  · intro parsed m hparse hread
    simp [rpcOnEnd, hstatus, hbody, hparse, hread]
  · intro parsed e hparse hread hfalsy
    simp [rpcOnEnd, hstatus, hbody, hparse, hread, hfalsy]
  · intro parsed e message hparse hread htruthy hconv
    simp [rpcOnEnd, hstatus, hbody, hparse, hread, htruthy, hconv, Settled.value]
  · intro parsed e m hparse hread htruthy hconv
    simp [rpcOnEnd, hstatus, hbody, hparse, hread, htruthy, hconv]

/-- With status 500: the overload text is rejected as such; a body on which the
parser fails is rejected as a parse failure; so is the body `null`; the body `5`
resolves to `5`; the body
`{"result":null,"error":{"code":-5,"message":"Block not found"},"id":7}` settles
with the error built from its `error` field; and the body
`{"result":null,"error":{"toString":"x"},"id":7}` is rejected as a parse failure. -/
theorem status_500_outcomes_witness :
    rpcOnEnd (fixedPlatform 500 "Internal Server Error" failureBody failureParsed quietHandler)
        ⟨500, "Internal Server Error", "Work queue depth exceeded"⟩ =
      .rejected (.error "Work queue depth exceeded") ∧
    rpcOnEnd (fixedPlatform 500 "Internal Server Error" failureBody failureParsed quietHandler)
        ⟨500, "Internal Server Error", "<html>"⟩ =
      .rejected (.error "Error Parsing JSON: Unexpected token") ∧
    rpcOnEnd (fixedPlatform 500 "Internal Server Error" "null" .null quietHandler)
        ⟨500, "Internal Server Error", "null"⟩ =
      .rejected (.error
        "Error Parsing JSON: Cannot read properties of null (reading 'error')") ∧
    rpcOnEnd (fixedPlatform 500 "Internal Server Error" "5" (.num 5) quietHandler)
        ⟨500, "Internal Server Error", "5"⟩ = .resolved (.num 5) ∧
    (rpcOnEnd (fixedPlatform 500 "Internal Server Error" failureBody failureParsed quietHandler)
        ⟨500, "Internal Server Error", failureBody⟩).value = .error "[object Object]" ∧
    rpcOnEnd
        (fixedPlatform 500 "Internal Server Error" unprintableErrorBody unprintableErrorParsed
          quietHandler)
        ⟨500, "Internal Server Error", unprintableErrorBody⟩ =
      .rejected (.error "Error Parsing JSON: Cannot convert object to primitive value") :=
  ⟨(status_500_outcomes _ ⟨500, "Internal Server Error", "Work queue depth exceeded"⟩ rfl).1 rfl,
    ((status_500_outcomes
      (fixedPlatform 500 "Internal Server Error" failureBody failureParsed quietHandler)
      ⟨500, "Internal Server Error", "<html>"⟩ rfl).2 (by decide)).1 "Unexpected token" rfl,
    ((status_500_outcomes
      (fixedPlatform 500 "Internal Server Error" "null" .null quietHandler)
      ⟨500, "Internal Server Error", "null"⟩ rfl).2 (by decide)).2.1 .null
      "Cannot read properties of null (reading 'error')" rfl rfl,
    ((status_500_outcomes
      (fixedPlatform 500 "Internal Server Error" "5" (.num 5) quietHandler)
      ⟨500, "Internal Server Error", "5"⟩ rfl).2 (by decide)).2.2.1 (.num 5) .undefined
      rfl rfl rfl,
    ((status_500_outcomes
      (fixedPlatform 500 "Internal Server Error" failureBody failureParsed quietHandler)
      ⟨500, "Internal Server Error", failureBody⟩ rfl).2 (by decide)).2.2.2.1
      failureParsed (.obj [("code", .num (-5)), ("message", .str "Block not found")])
      "[object Object]" rfl rfl rfl rfl,
    ((status_500_outcomes
      (fixedPlatform 500 "Internal Server Error" unprintableErrorBody unprintableErrorParsed
        quietHandler)
      ⟨500, "Internal Server Error", unprintableErrorBody⟩ rfl).2 (by decide)).2.2.2.2
      unprintableErrorParsed (.obj [("toString", .str "x")])
      "Cannot convert object to primitive value" rfl rfl rfl rfl⟩

/-- C6, as stated, fails: a response with status 500 whose body
`{"result":12345,"error":null,"id":7}` is not the overload text and does parse is
resolved with the parsed object, that is, classified as success and not as an
application error. -/
theorem status_500_parseable_body_is_success :
    successBody ≠ "Work queue depth exceeded" ∧
    (fixedPlatform 500 "Internal Server Error" successBody successParsed quietHandler).jsonParse
        successBody = .ok successParsed ∧
    rpcOnEnd (fixedPlatform 500 "Internal Server Error" successBody successParsed quietHandler)
        ⟨500, "Internal Server Error", successBody⟩ =
      .resolved (.obj [("result", .num 12345), ("error", .null), ("id", .num 7)]) ∧
    ∀ m, (rpcOnEnd
        (fixedPlatform 500 "Internal Server Error" successBody successParsed quietHandler)
        ⟨500, "Internal Server Error", successBody⟩).value ≠ .error m := by
  refine ⟨by decide, rfl, rfl, ?_⟩
  intro m h
  have h2 : (rpcOnEnd
      (fixedPlatform 500 "Internal Server Error" successBody successParsed quietHandler)
      ⟨500, "Internal Server Error", successBody⟩).value = successParsed := rfl
  rw [h2] at h
  cases h

/-- C8, as the code has it: for every response that is neither an authentication
rejection nor the overload signal and whose body parses to an object, with `e`
the object's `error` field (`undefined` when absent): the promise resolves to the
parsed object (success) exactly when `e` is falsy, the falsy values being
`undefined`, `null`, `false`, `0` and the empty string; when `e` is truthy the
promise settles with the error whose message is the string conversion of `e`
(the application error), unless that conversion throws, in which case the
response is rejected as a parse failure. -/
theorem application_error_iff_error_truthy (P : Platform) (res : HttpResponse)
    (fields : List (String × JsValue))
    (hauth : ¬ (res.statusCode = 401 ∨ res.statusCode = 403))
    (hoverload : ¬ (res.statusCode = 500 ∧ res.body = "Work queue depth exceeded"))
    (hparse : P.jsonParse res.body = .ok (.obj fields)) :
    (rpcOnEnd P res = .resolved (.obj fields) ↔
      truthy ((fields.lookup "error").getD .undefined) = false) ∧
    (truthy ((fields.lookup "error").getD .undefined) = true →
      (∀ message, P.toStringOf ((fields.lookup "error").getD .undefined) = .ok message →
        (rpcOnEnd P res).value = .error message) ∧
      (∀ m, P.toStringOf ((fields.lookup "error").getD .undefined) = .error m →
        rpcOnEnd P res = .rejected (.error ("Error Parsing JSON: " ++ m)))) ∧
    (∀ e : JsValue, truthy e = false ↔
      (e = .undefined ∨ e = .null ∨ e = .bool false ∨ e = .num 0 ∨ e = .str "")) := by
  refine ⟨?_, ?_, ?_⟩
  · cases htruthy : truthy ((fields.lookup "error").getD .undefined) with
    | false =>
      simp [rpcOnEnd, hauth, hoverload, hparse, propError, htruthy]
    | true =>
      cases hconv : P.toStringOf ((fields.lookup "error").getD .undefined) with
      | ok message =>
        simp [rpcOnEnd, hauth, hoverload, hparse, propError, htruthy, hconv]
      | error m =>
        simp [rpcOnEnd, hauth, hoverload, hparse, propError, htruthy, hconv]
  · intro htruthy
    constructor
    · intro message hconv
      simp [rpcOnEnd, hauth, hoverload, hparse, propError, htruthy, hconv, Settled.value]
    · intro m hconv
      simp [rpcOnEnd, hauth, hoverload, hparse, propError, htruthy, hconv]
  · intro e
    cases e <;> simp [truthy]

/-- With status 200: the body `{"result":12345,"error":null,"id":7}` resolves to the
parsed object; the body
`{"result":null,"error":{"code":-5,"message":"Block not found"},"id":7}` settles
with the error `[object Object]`; the body
`{"result":null,"error":{"toString":"x"},"id":7}` is rejected as a parse failure. -/
theorem application_error_iff_error_truthy_witness :
    rpcOnEnd (fixedPlatform 200 "OK" successBody successParsed quietHandler)
        ⟨200, "OK", successBody⟩ =
      .resolved (.obj [("result", .num 12345), ("error", .null), ("id", .num 7)]) ∧
    (rpcOnEnd (fixedPlatform 200 "OK" failureBody failureParsed quietHandler)
        ⟨200, "OK", failureBody⟩).value = .error "[object Object]" ∧
    rpcOnEnd (fixedPlatform 200 "OK" unprintableErrorBody unprintableErrorParsed quietHandler)
        ⟨200, "OK", unprintableErrorBody⟩ =
      .rejected (.error "Error Parsing JSON: Cannot convert object to primitive value") :=
  ⟨(application_error_iff_error_truthy
      (fixedPlatform 200 "OK" successBody successParsed quietHandler)
      ⟨200, "OK", successBody⟩
      [("result", .num 12345), ("error", .null), ("id", .num 7)]
      (by decide) (by decide) rfl).1.2 rfl,
    ((application_error_iff_error_truthy
      (fixedPlatform 200 "OK" failureBody failureParsed quietHandler)
      ⟨200, "OK", failureBody⟩
      [("result", .null),
        ("error", .obj [("code", .num (-5)), ("message", .str "Block not found")]),
        ("id", .num 7)]
      (by decide) (by decide) rfl).2.1 rfl).1 "[object Object]" rfl,
    ((application_error_iff_error_truthy
      (fixedPlatform 200 "OK" unprintableErrorBody unprintableErrorParsed quietHandler)
      ⟨200, "OK", unprintableErrorBody⟩
      [("result", .null), ("error", .obj [("toString", .str "x")]), ("id", .num 7)]
      (by decide) (by decide) rfl).2.1 rfl).2
      "Cannot convert object to primitive value" rfl⟩

/-- C8, as stated, fails: the body `{"result":null,"error":0,"id":7}` parses to an
object whose `error` field is present and is not `null`, yet the promise resolves
to the parsed object and not to an error. -/
theorem zero_error_field_is_success :
    (fixedPlatform 200 "OK" zeroErrorBody zeroErrorParsed quietHandler).jsonParse
        zeroErrorBody =
      .ok (.obj [("result", .null), ("error", .num 0), ("id", .num 7)]) ∧
    ([("result", JsValue.null), ("error", .num 0), ("id", .num 7)].lookup "error" =
      some (.num 0)) ∧
    JsValue.num 0 ≠ .null ∧
    rpcOnEnd (fixedPlatform 200 "OK" zeroErrorBody zeroErrorParsed quietHandler)
        ⟨200, "OK", zeroErrorBody⟩ =
      .resolved (.obj [("result", .null), ("error", .num 0), ("id", .num 7)]) ∧
    ∀ m, (rpcOnEnd (fixedPlatform 200 "OK" zeroErrorBody zeroErrorParsed quietHandler)
        ⟨200, "OK", zeroErrorBody⟩).value ≠ .error m := by
  refine ⟨rfl, rfl, ?_, rfl, ?_⟩
  · intro h
    cases h
  · intro m h
    have h2 : (rpcOnEnd (fixedPlatform 200 "OK" zeroErrorBody zeroErrorParsed quietHandler)
        ⟨200, "OK", zeroErrorBody⟩).value = zeroErrorParsed := rfl
    rw [h2] at h
    cases h

/-! ## Behaviour at the inputs where the code departs from the specification -/

theorem settleCalls_exchanges (P : Platform) (started : List Started) (w : World) :
    (settleCalls P started w).exchanges = w.exchanges := by
  induction started generalizing w with
  | nil => rfl
  | cons s rest ih =>
    cases s with
    | threw reason => exact ih w
    | awaiting k request callback =>
      simp only [settleCalls]
      rw [ih, methodSettle_exchanges]

theorem batchSettle_exchanges (P : Platform) (resultCallback : JsValue) (outcome : Settled)
    (w : World) : (batchSettle P resultCallback outcome w).exchanges = w.exchanges := by
  unfold batchSettle
  cases outcome with
  | resolved result =>
    have h := invoke_exchanges P resultCallback .null result w
    simp only
    split
    · simp_all
    · rename_i thrown w1 heq
      rw [invoke_exchanges]
      simp_all
  | rejected error => exact invoke_exchanges P resultCallback error .null w

/-- C1 at a failing input: on every platform and in every state, a batch whose
building callback calls `getblockcount()`, `getblockhash(5)` and `getinfo()`
performs four exchanges: one for each of the three calls, carrying that call's
own request, and then one for the batch, whose payload is the empty array. -/
theorem batch_of_three_performs_four_exchanges (P : Platform) (w : World) :
    (batch P [⟨"getblockcount", []⟩, ⟨"getblockhash", [.num 5]⟩, ⟨"getinfo", []⟩]
        (.func 0) w).map (fun w1 => w1.exchanges) =
      some (w.exchanges ++
        [requestObject "getblockcount" [] (P.random w.idsDrawn % 100000),
          requestObject "getblockhash" [.num 5] (P.random (w.idsDrawn + 1) % 100000),
          requestObject "getinfo" [] (P.random (w.idsDrawn + 1 + 1) % 100000),
          .arr []]) := by
  have h1 : callspec.lookup "getblockcount" = some "" := by decide
  have h2 : callspec.lookup "getblockhash" = some "int" := by decide
  have h3 : callspec.lookup "getinfo" = some "" := by decide
  have a0 : (argList "").length = 0 := by decide
  have a1 : (argList "int").length = 1 := by decide
  simp [batch, runCalls, h1, h2, h3, methodStart, a0, a1, getRandomId, rpcSend,
    batchSettle_exchanges, settleCalls_exchanges]

/-- C5 at a failing input: `getblockhash(9)` answered with status 200 and the body
`{"result":null,"error":{"code":-5,"message":"Block not found"},"id":7}` resolves
(it is not rejected) with the error object as its value, and
`getblockhash(9, f)` invokes `f` once, with `null` in the error position and the
error object in the result position. -/
theorem application_error_is_delivered_as_result :
    (callMethod (fixedPlatform 200 "OK" failureBody failureParsed quietHandler)
        ⟨"getblockhash", [.num 9]⟩ World.initial).map Prod.fst =
      some (.resolved (.error "[object Object]")) ∧
    (callMethod (fixedPlatform 200 "OK" failureBody failureParsed quietHandler)
        ⟨"getblockhash", [.num 9, .func 0]⟩ World.initial).map
        (fun r => r.2.invocations) =
      some [⟨.func 0, .null, .error "[object Object]"⟩] :=
  ⟨rfl, rfl⟩

/-- C9 at a failing input: on every platform and in every state, the call
`getblock("abc", f)`, which supplies one parameter and a handler to a method of
arity 2, passes the arity check and sends a request whose `params` are
`["abc", f]`. -/
theorem handler_is_counted_as_a_parameter (P : Platform) (w : World) :
    (callMethod P ⟨"getblock", [.str "abc", .func 0]⟩ w).map (fun r => r.2.exchanges) =
      some (w.exchanges ++
        [.obj [("jsonrpc", .str "2.0"), ("method", .str "getblock"),
          ("params", .arr [.str "abc", .func 0]),
          ("id", .num (P.random w.idsDrawn % 100000 : Nat))]]) := by
  have h1 : callspec.lookup "getblock" = some "str bool" := by decide
  have a2 : (argList "str bool").length = 2 := by decide
  simp [callMethod, h1, generatedMethod, methodStart, a2, getRandomId, rpcSend,
    methodSettle_exchanges, requestObject]

/-- C10 at a failing input: `getblockcount(f)` answered with status 200 and the body
`{"result":12345,"error":null,"id":7}`, where `f` throws `Error("boom")` when it
is handed the result: `f` is invoked twice, first with `(null, response)` and then
with `(Error("boom"), null)`. -/
theorem throwing_handler_is_invoked_twice :
    (callMethod (fixedPlatform 200 "OK" successBody successParsed throwingHandler)
        ⟨"getblockcount", [.func 0]⟩ World.initial).map (fun r => r.2.invocations) =
      some [⟨.func 0, .null,
          .obj [("result", .num 12345), ("error", .null), ("id", .num 7)]⟩,
        ⟨.func 0, .error "boom", .null⟩] :=
  rfl

end RpcClient
